import Mathlib

set_option maxHeartbeats 1000000

/-!
Shallow embedding of the beta-graph WTA trail-search core
(`src/beta_graph/servers/wta/handlers.py`, `chroma_store.py`, `config.py`,
`scraper.py`).  Python floats are modelled as rationals (`ℚ`) in the data
plane and as reals (`ℝ`) inside the trigonometric distance function;
Python dicts are modelled as insertion-ordered association lists.
-/

mutual

/-- A JSON-ish metadata value, as stored in Chroma metadata dicts.
`jstr v` models a Python string that holds the JSON serialization of `v`
(produced by `json.dumps`); `str s` models a plain non-JSON string, so
`json.loads` on it is modelled as failing.  `arr`/`obj` use the mutual
list types `ValList`/`FieldList` (isomorphic to `List Val` and
`List (String × Val)`). -/
inductive Val where
  | null : Val
  | bool : Bool → Val
  | num : ℚ → Val
  | str : String → Val
  | arr : ValList → Val
  | obj : FieldList → Val
  | jstr : Val → Val
  deriving DecidableEq

inductive ValList where
  | nil : ValList
  | cons : Val → ValList → ValList
  deriving DecidableEq

inductive FieldList where
  | nil : FieldList
  | cons : String → Val → FieldList → FieldList
  deriving DecidableEq

end

/-- Build a `ValList` from a Lean list literal. -/
def ValList.ofList : List Val → ValList
  | [] => .nil
  | v :: vs => .cons v (ValList.ofList vs)

/-- Build a `FieldList` from a Lean list literal. -/
def FieldList.ofList : List (String × Val) → FieldList
  | [] => .nil
  | (k, v) :: fs => .cons k v (FieldList.ofList fs)

/-- Lookup in a `FieldList` (Python `dict.get` on a nested JSON object). -/
def FieldList.lookup (k : String) : FieldList → Option Val
  | .nil => none
  | .cons k2 v tl => if k2 = k then some v else FieldList.lookup k tl

/-- A metadata record: a Python dict as an insertion-ordered association list
(keys unique by construction). -/
abbrev Rec := List (String × Val)

/-- Python `d.get(k)`: the value at the key, if present. -/
def getKey (m : Rec) (k : String) : Option Val :=
  match m with
  | [] => none
  | p :: tl => if p.1 = k then some p.2 else getKey tl k

/-- Python `d[k] = v` on a unique-key dict: replace in place if the key
exists, else append at the end (dicts preserve insertion order). -/
def setKey (m : Rec) (k : String) (v : Val) : Rec :=
  match m with
  | [] => [(k, v)]
  | p :: tl => if p.1 = k then (k, v) :: tl else p :: setKey tl k v

/-- Python `d.pop(k, None)` on a unique-key dict: remove the key if
present. -/
def popKey (m : Rec) (k : String) : Rec :=
  match m with
  | [] => []
  | p :: tl => if p.1 = k then popKey tl k else p :: popKey tl k

example : setKey [("a", Val.num 1)] "a" (Val.num 2) = [("a", Val.num 2)] := by decide
example : popKey [("a", Val.num 1), ("b", Val.null)] "a" = [("b", Val.null)] := by decide
example : getKey [("a", Val.num 1), ("b", Val.null)] "b" = some Val.null := by decide

/-- `math.atan2(y, x)`: the four-quadrant arctangent, following the C/Python
convention (`atan2 0 0 = 0`). -/
noncomputable def atan2 (y x : ℝ) : ℝ :=
  if 0 < x then Real.arctan (y / x)
  else if x < 0 ∧ 0 ≤ y then Real.arctan (y / x) + Real.pi
  else if x < 0 ∧ y < 0 then Real.arctan (y / x) - Real.pi
  else if x = 0 ∧ 0 < y then Real.pi / 2
  else if x = 0 ∧ y < 0 then -(Real.pi / 2)
  else 0

/-- The haversine `a` term of `_haversine_miles` in `chroma_store.py`:
`sin(dphi/2)**2 + cos(phi1)*cos(phi2)*sin(dlam/2)**2` with
`phi = math.radians(lat) = lat * pi / 180`. -/
noncomputable def havA (lat1 lon1 lat2 lon2 : ℝ) : ℝ :=
  Real.sin ((lat2 - lat1) * (Real.pi / 180) / 2) ^ 2 +
    Real.cos (lat1 * (Real.pi / 180)) * Real.cos (lat2 * (Real.pi / 180)) *
      Real.sin ((lon2 - lon1) * (Real.pi / 180) / 2) ^ 2

/-- `_haversine_miles` (chroma_store.py lines 11-19): great-circle distance in
miles, Earth radius `R = 3959`, `c = 2 * atan2(sqrt(a), sqrt(1 - a))`,
returning `R * c`. -/
noncomputable def _haversine_miles (lat1 lon1 lat2 lon2 : ℝ) : ℝ :=
  3959 *
    (2 * atan2 (Real.sqrt (havA lat1 lon1 lat2 lon2))
      (Real.sqrt (1 - havA lat1 lon1 lat2 lon2)))

/-- Python `round` to the nearest integer, ties to even, on a real input. -/
noncomputable def roundHalfEvenR (x : ℝ) : ℤ :=
  if Int.fract x < 1 / 2 then ⌊x⌋
  else if 1 / 2 < Int.fract x then ⌊x⌋ + 1
  else if ⌊x⌋ % 2 = 0 then ⌊x⌋ else ⌊x⌋ + 1

/-- Python `round(x, 2)` on the (real-valued) haversine distance; the result
is an exact multiple of 1/100, recorded as a rational metadata value. -/
noncomputable def pyRound2 (x : ℝ) : ℚ :=
  (roundHalfEvenR (x * 100) : ℚ) / 100

/-- Python `round` to the nearest integer, ties to even, on a rational. -/
def roundHalfEvenQ (x : ℚ) : ℤ :=
  if x - x.floor < 1 / 2 then x.floor
  else if 1 / 2 < x - x.floor then x.floor + 1
  else if x.floor % 2 = 0 then x.floor else x.floor + 1

/-- Python `round(x, 3)` on the similarity score. -/
def pyRound3 (x : ℚ) : ℚ :=
  (roundHalfEvenQ (x * 1000) : ℚ) / 1000

/-- `_parse_json_field` (chroma_store.py lines 22-33): `None → None`;
dict/list → itself; a JSON string parses back to its payload; a plain
string fails to parse (`None`); any other type → `None`. -/
def _parse_json_field : Option Val → Option Val
  | none => none
  | some Val.null => none
  | some (Val.obj fs) => some (Val.obj fs)
  | some (Val.arr xs) => some (Val.arr xs)
  | some (Val.jstr v) => some v
  | some (Val.str _) => none
  | some (Val.bool _) => none
  | some (Val.num _) => none

/-- Python truthiness of a JSON value (`or []` / `or {}` fallbacks). -/
def jsonTruthy : Val → Bool
  | Val.null => false
  | Val.bool b => b
  | Val.num q => q != 0
  | Val.str s => s != ""
  | Val.arr ValList.nil => false
  | Val.arr _ => true
  | Val.obj FieldList.nil => false
  | Val.obj _ => true
  | Val.jstr _ => true

/-- Read a numeric coordinate out of an optional metadata value; the source
stores coordinates as numbers, so non-numeric values count as missing. -/
def asNum : Option Val → Option ℚ
  | some (Val.num q) => some q
  | _ => none

/-- One ranked hit of `collection.query`: its metadata dict, its embedding
distance (`results["distances"][0][i]`, when present) and its document
(`results["documents"][0][i]`, when present). -/
structure Candidate where
  meta : Rec
  dist : Option ℚ
  doc : Option String

/-- `WTAVectorStore` (chroma_store.py): the Chroma collection is the
external collaborator, modelled as a black box with a record count
(`collection.count()`), a ranking function (`collection.query` returns the
first `k` entries of `ranking query`), and the stored metadata dicts
(`collection.get`, used by `list_all`). -/
structure WTAVectorStore where
  count : ℕ
  ranking : String → List Candidate
  metas : List Rec

/-- Python truthiness of an optional float (`center_lat and center_lon and
radius_miles`): `None` and `0.0` are falsy. -/
def optTruthy : Option ℚ → Bool
  | none => false
  | some q => q != 0

/-- `score = 1 - (distances[i] / 2) if ... else None`, then
`round(score, 3) if score is not None else None`. -/
def scoreVal : Option ℚ → Val
  | some d => Val.num (pyRound3 (1 - d / 2))
  | none => Val.null

/-- `results["documents"][0][i] if results["documents"] else None`. -/
def snippetVal : Option String → Val
  | some s => Val.str s
  | none => Val.null

/-- Expansion of a JSON-string list field (chroma_store.py lines 139-144):
`meta[k] = _parse_json_field(meta[k]) or []` when the stored value is a
string. -/
def expandField (k : String) (m : Rec) : Rec :=
  match getKey m k with
  | some (Val.jstr v) => setKey m k (if jsonTruthy v then v else Val.arr ValList.nil)
  | some (Val.str _) => setKey m k (Val.arr ValList.nil)
  | _ => m

/-- Expansion of the `location` field (chroma_store.py lines 145-146):
`meta["location"] = _parse_json_field(meta["location"]) or {}` when the
stored value is a string. -/
def expandLocField (m : Rec) : Rec :=
  match getKey m "location" with
  | some (Val.jstr v) => setKey m "location" (if jsonTruthy v then v else Val.obj FieldList.nil)
  | some (Val.str _) => setKey m "location" (Val.obj FieldList.nil)
  | _ => m

/-- The tail of the per-candidate loop body (chroma_store.py lines 138-157):
expand the JSON fields, drop the flat `latitude`/`longitude` keys, and
append `{**meta, "score": ..., "snippet": ...}`. -/
def finishMeta (c : Candidate) (m : Rec) : Rec :=
  let m1 := expandField "features" m
  let m2 := expandField "trip_reports" m1
  let m3 := expandField "alerts" m2
  let m4 := expandLocField m3
  let m5 := popKey (popKey m4 "latitude") "longitude"
  setKey (setKey m5 "score" (scoreVal c.dist)) "snippet" (snippetVal c.doc)

/-- The coordinate extracted for a candidate (chroma_store.py lines 124-128):
the grouped `location` JSON object when it parses to a dict, otherwise the
legacy flat `latitude`/`longitude` keys. -/
def candidateCoord (m : Rec) : Option ℚ × Option ℚ :=
  match _parse_json_field (getKey m "location") with
  | some (Val.obj fs) => (asNum (fs.lookup "latitude"), asNum (fs.lookup "longitude"))
  | _ => (asNum (getKey m "latitude"), asNum (getKey m "longitude"))

/-- One iteration of the result loop of `WTAVectorStore.search`
(chroma_store.py lines 122-157): `none` models `continue`.  The geo filter
runs exactly when `center_lat`, `center_lon` and `radius_miles` are all
not `None`; a candidate with a missing coordinate is skipped, a candidate
farther than `radius_miles` is skipped, and a kept candidate gets
`meta["distance_miles"] = round(dist, 2)`. -/
noncomputable def processCandidate (centerLat centerLon radiusMiles : Option ℚ)
    (c : Candidate) : Option Rec :=
  match centerLat, centerLon, radiusMiles with
  | some ca, some co, some rad =>
    match candidateCoord c.meta with
    | (some la, some lo) =>
      let dist := _haversine_miles (ca : ℝ) (co : ℝ) (la : ℝ) (lo : ℝ)
      if (rad : ℝ) < dist then none
      else some (finishMeta c (setKey c.meta "distance_miles" (Val.num (pyRound2 dist))))
    | _ => none
  | _, _, _ => some (finishMeta c c.meta)

/-- The `for`/`append`/`break` loop of `WTAVectorStore.search`: append each
kept candidate and stop as soon as `len(trails) >= n_results`. -/
def searchLoop (n : ℕ) (f : Candidate → Option Rec) : List Candidate → List Rec
  | [] => []
  | c :: cs =>
    match f c with
    | none => searchLoop n f cs
    | some r => if n ≤ 1 then [r] else r :: searchLoop (n - 1) f cs

/-- `WTAVectorStore.search` (chroma_store.py lines 88-161).  An empty store
returns `[]` before querying; with a truthy center and radius the fetch
size is `n_results * 20`, capped at the record count; the ranked
candidates are then filtered and truncated by `searchLoop`.  The unused
`where` parameter (always `None` at every call site) is omitted. -/
noncomputable def WTAVectorStore.search (store : WTAVectorStore) (query : String)
    (nResults : ℕ) (centerLat centerLon radiusMiles : Option ℚ) : List Rec :=
  if store.count = 0 then []
  else
    let fetchN :=
      if optTruthy centerLat && optTruthy centerLon && optTruthy radiusMiles then
        nResults * 20
      else nResults
    let fetchN := min fetchN store.count
    searchLoop nResults (processCandidate centerLat centerLon radiusMiles)
      ((store.ranking query).take fetchN)

/-- `WTAVectorStore.list_all` (chroma_store.py lines 163-178): expand the
JSON fields of every stored metadata dict and drop the flat
`latitude`/`longitude` keys. -/
def WTAVectorStore.list_all (store : WTAVectorStore) : List Rec :=
  store.metas.map (fun m =>
    let m1 := expandField "features" m
    let m2 := expandField "alerts" m1
    let m3 := expandField "trip_reports" m2
    let m4 := expandLocField m3
    popKey (popKey m4 "latitude") "longitude")

/-- Modelled from the spec (§4.2, geo-filtered case): request up to
`limit × 20` candidates capped at the store record count, discard
candidates with a missing coordinate or a distance beyond the radius, and
return the first `limit` survivors in the store ranking order.  Used as
the reference point for the refinement claim about
`WTAVectorStore.search`. -/
noncomputable def searchGeoSpec (store : WTAVectorStore) (query : String)
    (nResults : ℕ) (centerLat centerLon radiusMiles : ℚ) : List Rec :=
  if store.count = 0 then []
  else
    let fetchN := min (nResults * 20) store.count
    (((store.ranking query).take fetchN).filterMap
      (processCandidate (some centerLat) (some centerLon) (some radiusMiles))).take nResults

/-- The tunables of `wta/config.py` (each read from an environment variable
with the defaults 20, 50, true, true). -/
structure Config where
  defaultRadius : ℚ
  lazyRadius : ℚ
  enableFreshRag : Bool
  ragFetchConditions : Bool

/-- One geocoder hit (`geocode_forward` result entry).  `handlers.py` reads
`geo[0]["latitude"]` guarded by `.get("latitude") is not None`, then
indexes `geo[0]["longitude"]` directly, so the longitude field is plain. -/
structure GeoRec where
  latitude : Option ℚ
  longitude : ℚ

/-- The outcome of `geocode_forward(location, limit=1)` inside
`search_trails` (handlers.py lines 85-92): an exception is caught and
leaves the center unset; an empty list or a missing latitude also leaves
the center unset. -/
def resolveCenter : Except Unit (List GeoRec) → Option (ℚ × ℚ)
  | Except.error _ => none
  | Except.ok [] => none
  | Except.ok (g :: _) =>
    match g.latitude with
    | none => none
    | some la => some (la, g.longitude)

/-- Python truthiness of the optional location string (`if location:`). -/
def strTruthy : Option String → Bool
  | none => false
  | some s => s != ""

/-- Python `str.lower()` (ASCII case mapping), structurally over the
character list. -/
def pyLower (s : String) : String := String.mk (s.data.map Char.toLower)

/-- Python `str.strip()`: drop whitespace from both ends. -/
def pyStrip (s : String) : String :=
  String.mk ((s.data.dropWhile Char.isWhitespace).reverse.dropWhile
    Char.isWhitespace).reverse

/-- `location.lower().strip() if location else ""` (handlers.py line 146). -/
def normLoc : Option String → String
  | none => ""
  | some s => pyStrip (pyLower s)

/-- Truthiness of the resolved center (`radius if center_lat else None`,
handlers.py line 105): a latitude of exactly 0.0 is falsy in Python. -/
def centerTruthy : Option (ℚ × ℚ) → Bool
  | none => false
  | some c => c.1 != 0

/-- Lines 100-120 of `search_trails`: the primary store search plus the
retry-with-wider-radius fallback.  Returns the adopted result list and the
number of vector-store queries issued. -/
noncomputable def searchWithRetry (cfg : Config) (store : WTAVectorStore)
    (query : String) (nResults : ℕ) (center : Option (ℚ × ℚ))
    (radiusMiles : Option ℚ) : List Rec × ℕ :=
  let radius := radiusMiles.getD cfg.defaultRadius
  let clat := center.map Prod.fst
  let clon := center.map Prod.snd
  let results := store.search query nResults clat clon
    (if centerTruthy center then some radius else none)
  if center.isSome ∧ radius = cfg.defaultRadius ∧ results.length < 3 then
    let wider := store.search query nResults clat clon (some cfg.lazyRadius)
    (if results.length < wider.length then wider else results, 2)
  else (results, 1)

/-- The behaviour of one `fetch_fresh_trail_info(slug, ...)` call as seen by
the enrichment loop: `httpFail` is a request error caught inside the
scraper (scraper.py lines 515-519, returning empty lists), `ok` is a
successful parse, and `raised` is an exception escaping to
`future.result()` in the handler. -/
inductive FetchEnv where
  | httpFail : FetchEnv
  | ok : List String → List Val → FetchEnv
  | raised : FetchEnv

/-- `fetch_fresh_trail_info` (scraper.py lines 501-542): returns a dict with
`alerts` and `trip_reports`; an HTTP failure returns the empty dict
`{"alerts": [], "trip_reports": []}` rather than raising; trip reports are
only fetched when `fetch_conditions` is set. -/
def fetch_fresh_trail_info (fetchConditions : Bool) :
    FetchEnv → Except Unit (List String × List Val)
  | FetchEnv.httpFail => Except.ok ([], [])
  | FetchEnv.ok alerts reports =>
    Except.ok (alerts, if fetchConditions then reports else [])
  | FetchEnv.raised => Except.error ()

/-- The overlay in the enrichment loop (handlers.py lines 140-141):
`r["alerts"] = fresh.get("alerts") or []` and
`r["trip_reports"] = fresh.get("trip_reports") or []`. -/
def applyFresh (r : Rec) (fresh : List String × List Val) : Rec :=
  setKey (setKey r "alerts" (Val.arr (ValList.ofList (fresh.1.map Val.str))))
    "trip_reports" (Val.arr (ValList.ofList fresh.2))

/-- Enrichment of one result (handlers.py lines 134-143): on a successful
`future.result()` the fresh data overwrites the stored fields; an
exception is logged and leaves the record untouched. -/
def enrichOne (fetchConditions : Bool) (env : FetchEnv) (r : Rec) : Rec :=
  match fetch_fresh_trail_info fetchConditions env with
  | Except.ok fresh => applyFresh r fresh
  | Except.error _ => r

/-- Whether a result carries a truthy slug: the dict-comprehension filter
`if r.get("slug")` at handlers.py line 124 (slugs are strings in this
program, written from `WTATrail.slug`). -/
def slugTruthy (r : Rec) : Bool :=
  match getKey r "slug" with
  | some (Val.str s) => s != ""
  | _ => false

/-- The RAG enrichment block (handlers.py lines 122-143), sequentialized:
each result carrying a truthy string slug is enriched from its fetch
outcome; the worker-pool interleaving is irrelevant because distinct slugs
touch distinct records (results are keyed by slug).  When the non-empty
result list contains no truthy slug, `slug_to_result` is empty and
`ThreadPoolExecutor(max_workers=min(5, 0))` raises `ValueError` out of the
block (handlers.py line 125); `none` models that escaping exception. -/
def enrichResults (cfg : Config) (fetch : String → FetchEnv)
    (results : List Rec) : Option (List Rec) :=
  if results ≠ [] ∧ cfg.enableFreshRag then
    if results.any slugTruthy then
      some (results.map (fun r =>
        match getKey r "slug" with
        | some (Val.str s) =>
          if s = "" then r else enrichOne cfg.ragFetchConditions (fetch s) r
        | _ => r))
    else none
  else some results

/-- A lazy-scrape state key.  The source builds the string
`f"{loc_normalized}|{radius}"`; since the radius suffix never contains
`|`, the string is in bijection with the pair, which we use directly. -/
abbrev ScrapeKey := String × ℚ

/-- The module-level scrape bookkeeping of handlers.py:
`_scraping_locations` (in-progress) and `_scraped_locations` (done),
Python sets modelled as duplicate-free lists.  All mutation happens under
`_scraping_lock`. -/
structure ScrapeState where
  scraping : List ScrapeKey
  scraped : List ScrapeKey
  deriving DecidableEq

/-- Python `set.add`. -/
def insertKey (k : ScrapeKey) (l : List ScrapeKey) : List ScrapeKey :=
  if k ∈ l then l else k :: l

/-- The locked check-and-launch block (handlers.py lines 188-206): under
`_scraping_lock`, if the key is not in the in-progress set, insert it and
start the background thread.  The lock makes the whole block one atomic
step; the returned flag says whether a thread was started. -/
def tryLaunch (k : ScrapeKey) (s : ScrapeState) : ScrapeState × Bool :=
  if k ∈ s.scraping then (s, false)
  else ({ s with scraping := insertKey k s.scraping }, true)

/-- The deny-list `_LAZY_SCRAPE_SKIP_LOCATIONS` (handlers.py lines 20-24). -/
def _LAZY_SCRAPE_SKIP_LOCATIONS : List String :=
  ["washington", "wa", "washington state",
   "california", "ca", "oregon", "or", "idaho", "id",
   "seattle area", "puget sound"]

/-- Whether `w` occurs as a contiguous sublist of the second argument. -/
def hasSubList (w : List Char) : List Char → Bool
  | [] => decide (w = [])
  | c :: tl => w.isPrefixOf (c :: tl) || hasSubList w tl

/-- Python `w in s` substring containment. -/
def strContains (s w : String) : Bool := hasSubList w.data s.data

/-- `any(w in loc_normalized for w in ("spruce", "cedar", "mosses"))`
(handlers.py line 156). -/
def hasFeatureWord (s : String) : Bool :=
  strContains s "spruce" || strContains s "cedar" || strContains s "mosses"

/-- Advisory dict: `{"_<flag>": True, "message": ...}` (message texts are
abbreviated renderings of the f-strings in handlers.py). -/
def mkAdvisory (flag msg : String) : Rec :=
  [(flag, Val.bool true), ("message", Val.str msg)]

/-- The `_geocode_failed` advisory (handlers.py lines 95-98). -/
def geocodeFailedAdv (location : String) : Rec :=
  mkAdvisory "_geocode_failed"
    ("Could not find coordinates for " ++ location ++
      ". Try a nearby place or a broader area.")

/-- The too-broad `_skip_scrape` advisory (handlers.py lines 152-155). -/
def skipBroadAdv (location : String) : Rec :=
  mkAdvisory "_skip_scrape"
    (location ++ " is too broad - try a specific place.")

/-- The trail-feature `_skip_scrape` advisory (handlers.py lines 157-160). -/
def skipFeatureAdv (location : String) : Rec :=
  mkAdvisory "_skip_scrape"
    (location ++ " looks like a trail or feature, not a place. Try a location or search by name without location.")

/-- The location-equals-query `_skip_scrape` advisory (handlers.py lines
162-165). -/
def skipQueryAdv (query : String) : Rec :=
  mkAdvisory "_skip_scrape"
    ("Search for " ++ query ++ " returned no trails. Try a place name or different keywords.")

/-- The `_already_scraped` advisory (handlers.py lines 174-177). -/
def alreadyScrapedAdv (location : String) : Rec :=
  mkAdvisory "_already_scraped"
    ("We have already loaded trails for " ++ location ++
      ". No results match your query - try different keywords or a broader search.")

/-- The in-progress `_fetching` advisory (handlers.py lines 179-182). -/
def fetchingAdv (location : String) : Rec :=
  mkAdvisory "_fetching"
    ("Trails for " ++ location ++ " are being fetched. Please retry in 2-3 minutes.")

/-- The just-started `_fetching` advisory (handlers.py lines 209-212). -/
def fetchingStartedAdv (location : String) : Rec :=
  mkAdvisory "_fetching"
    ("No trails for " ++ location ++ " yet. Fetching in background - please retry in 2-3 minutes.")

/-- What the lazy-scrape section produces: an advisory that replaces the
result list (or none), whether a background thread was started, and the
scrape state after the call. -/
structure LazyOut where
  advisory : Option Rec
  launched : Bool
  state : ScrapeState
  deriving DecidableEq

/-- The lazy-scrape section of `search_trails` (handlers.py lines 145-213),
acting on the (enriched) result list. -/
def lazyScrapeBlock (cfg : Config) (query : String) (location : Option String)
    (lazyScrape rescrape : Bool) (center : Option (ℚ × ℚ)) (results : List Rec)
    (st : ScrapeState) : LazyOut :=
  let locNorm := normLoc location
  let fewResults := results.length < 3
  let shouldScrape :=
    (results = [] ∨ fewResults) ∧ strTruthy location ∧ lazyScrape ∧ center.isSome
  if shouldScrape then
    if locNorm ∈ _LAZY_SCRAPE_SKIP_LOCATIONS then
      ⟨some (skipBroadAdv (location.getD "")), false, st⟩
    else if hasFeatureWord locNorm then
      ⟨some (skipFeatureAdv (location.getD "")), false, st⟩
    else if results = [] ∧ locNorm = pyStrip (pyLower query) then
      ⟨some (skipQueryAdv query), false, st⟩
    else
      let key : ScrapeKey := (locNorm, cfg.lazyRadius)
      let alreadyScraped := key ∈ st.scraped ∧ rescrape = false
      let inProgress := key ∈ st.scraping
      if results = [] ∧ alreadyScraped then
        ⟨some (alreadyScrapedAdv (location.getD "")), false, st⟩
      else if results = [] ∧ inProgress then
        ⟨some (fetchingAdv (location.getD "")), false, st⟩
      else
        let d :=
          if fewResults ∧ alreadyScraped ∧ rescrape = false then (st, false)
          else if inProgress then (st, false)
          else tryLaunch key st
        if results = [] then ⟨some (fetchingStartedAdv (location.getD "")), d.2, d.1⟩
        else ⟨none, d.2, d.1⟩
  else ⟨none, false, st⟩

/-- The external collaborators of one `search_trails` call: the geocoder
outcome, the vector store, and the per-slug enrichment fetch outcomes. -/
structure SearchEnv where
  geo : Except Unit (List GeoRec)
  store : WTAVectorStore
  fetch : String → FetchEnv

/-- The observable outcome of one `search_trails` call: the returned list
(results or a single advisory dict), the number of vector-store queries
issued, whether a background scrape thread was started, and the scrape
state after the call. -/
structure SearchOutput where
  result : List Rec
  queries : ℕ
  launched : Bool
  state : ScrapeState
  deriving DecidableEq

/-- `search_trails` (handlers.py lines 72-215).  `none` models an exception
escaping the call: the `ValueError` raised by the enrichment block when
the non-empty result list carries no slug (handlers.py line 125), which
aborts the call before the lazy-scrape section runs. -/
noncomputable def search_trails (cfg : Config) (env : SearchEnv) (query : String)
    (nResults : ℕ) (location : Option String) (radiusMiles : Option ℚ)
    (lazyScrape rescrape : Bool) (st : ScrapeState) : Option SearchOutput :=
  let center := if strTruthy location then resolveCenter env.geo else none
  if strTruthy location ∧ center = none then
    some ⟨[geocodeFailedAdv (location.getD "")], 0, false, st⟩
  else
    let sr := searchWithRetry cfg env.store query nResults center radiusMiles
    match enrichResults cfg env.fetch sr.1 with
    | none => none
    | some results =>
      let lz := lazyScrapeBlock cfg query location lazyScrape rescrape center results st
      let finalResult : List Rec :=
        match lz.advisory with
        | some a => [a]
        | none => results
      some ⟨finalResult, sr.2, lz.launched, lz.state⟩

/-- An atomic lock-protected step of the background scrape thread:
`markDone` is `_scraped_locations.add(loc_key)` (handlers.py lines 66-67
inside `lazy_scrape_and_load`, and lines 196-197 inside `_run_scrape`);
`release` is `_scraping_locations.discard(loc_key)` in the `finally`
block (handlers.py lines 201-203). -/
inductive ScrapeOp where
  | markDone : ScrapeOp
  | release : ScrapeOp
  deriving DecidableEq

/-- Apply one scrape-thread step to the scrape state. -/
def applyOp (k : ScrapeKey) (s : ScrapeState) : ScrapeOp → ScrapeState
  | ScrapeOp.markDone => { s with scraped := insertKey k s.scraped }
  | ScrapeOp.release => { s with scraping := s.scraping.erase k }

/-- Apply a sequence of scrape-thread steps. -/
def applyOps (k : ScrapeKey) (s : ScrapeState) : List ScrapeOp → ScrapeState
  | [] => s
  | op :: ops => applyOps k (applyOp k s op) ops

/-- How one `_run_scrape` execution can go: `raised` aborts before any done
marking (e.g. the scrape raised); `geocodeFail`/`noTrails` run
`lazy_scrape_and_load` to a 0 return without the inner done-marking;
`gotTrails` also runs the inner `_scraped_locations.add` of
`lazy_scrape_and_load`. -/
inductive ScrapePhase where
  | raised : ScrapePhase
  | geocodeFail : ScrapePhase
  | noTrails : ScrapePhase
  | gotTrails : ScrapePhase
  deriving DecidableEq

/-- Number of `markDone` steps a phase performs. -/
def numMarks : ScrapePhase → ℕ
  | ScrapePhase.raised => 0
  | ScrapePhase.geocodeFail => 1
  | ScrapePhase.noTrails => 1
  | ScrapePhase.gotTrails => 2

/-- The lock-step trace of `_run_scrape` (handlers.py lines 192-203): on an
exception, only the `finally` release runs; otherwise
`lazy_scrape_and_load` marks done when trails were found (lines 66-67),
`_run_scrape` marks done unconditionally (lines 196-197), and the
`finally` block releases the in-progress entry last (lines 201-203). -/
def runScrapeOps : ScrapePhase → List ScrapeOp
  | ScrapePhase.raised => [ScrapeOp.release]
  | ScrapePhase.geocodeFail => [ScrapeOp.markDone, ScrapeOp.release]
  | ScrapePhase.noTrails => [ScrapeOp.markDone, ScrapeOp.release]
  | ScrapePhase.gotTrails => [ScrapeOp.markDone, ScrapeOp.markDone, ScrapeOp.release]

/-! ## Helper lemmas -/

theorem havA_self (la lo : ℝ) : havA la lo la lo = 0 := by
  simp [havA]

theorem atan2_zero_one : atan2 0 1 = 0 := by
  rw [atan2, if_pos zero_lt_one]
  simp

theorem haversine_self (la lo : ℝ) : _haversine_miles la lo la lo = 0 := by
  rw [_haversine_miles, havA_self]
  simp [atan2_zero_one]

theorem havA_comm (a b c d : ℝ) : havA a b c d = havA c d a b := by
  rw [havA, havA]
  have h1 : (a - c) * (Real.pi / 180) / 2 = -((c - a) * (Real.pi / 180) / 2) := by ring
  have h2 : (b - d) * (Real.pi / 180) / 2 = -((d - b) * (Real.pi / 180) / 2) := by ring
  rw [h1, h2, Real.sin_neg, Real.sin_neg]
  ring

theorem haversine_comm (a b c d : ℝ) :
    _haversine_miles a b c d = _haversine_miles c d a b := by
  rw [_haversine_miles, _haversine_miles, havA_comm]

theorem searchLoop_eq_take_filterMap (f : Candidate → Option Rec) :
    ∀ (cs : List Candidate) (n : ℕ), 1 ≤ n →
      searchLoop n f cs = (cs.filterMap f).take n := by
  intro cs
  induction cs with
  | nil => intro n hn; simp [searchLoop]
  | cons c cs ih =>
    intro n hn
    cases hf : f c with
    | none => simp [searchLoop, hf, ih n hn]
    | some r =>
      obtain ⟨m, rfl⟩ : ∃ m, n = m + 1 := ⟨n - 1, by omega⟩
      have hfm : List.filterMap f (c :: cs) = r :: List.filterMap f cs := by
        simp [List.filterMap_cons, hf]
      rw [hfm, List.take_succ_cons]
      cases m with
      | zero => simp [searchLoop, hf]
      | succ m2 =>
        have hgt : ¬(m2 + 1 + 1 ≤ 1) := by omega
        simp only [searchLoop, hf, if_neg hgt, Nat.add_sub_cancel]
        rw [ih (m2 + 1) (by omega)]


theorem getKey_setKey_ne (m : Rec) (k k2 : String) (v : Val) (h : k2 ≠ k) :
    getKey (setKey m k v) k2 = getKey m k2 := by
  induction m with
  | nil =>
    simp only [setKey, getKey]
    rw [if_neg (fun hh => h hh.symm)]
  | cons p m ih =>
    by_cases hp : p.1 = k
    · simp only [setKey, if_pos hp, getKey]
      rw [if_neg (fun hh => h hh.symm), if_neg (fun hh => h (hp ▸ hh).symm)]
    · simp only [setKey, if_neg hp, getKey]
      by_cases hp2 : p.1 = k2
      · rw [if_pos hp2, if_pos hp2]
      · rw [if_neg hp2, if_neg hp2, ih]

theorem getKey_popKey_self (m : Rec) (k : String) : getKey (popKey m k) k = none := by
  induction m with
  | nil => rfl
  | cons p m ih =>
    by_cases hp : p.1 = k
    · simpa only [popKey, if_pos hp] using ih
    · simp only [popKey, if_neg hp, getKey]
      exact ih

theorem getKey_popKey_ne (m : Rec) (k k2 : String) (h : k2 ≠ k) :
    getKey (popKey m k) k2 = getKey m k2 := by
  induction m with
  | nil => rfl
  | cons p m ih =>
    by_cases hp : p.1 = k
    · simp only [popKey, if_pos hp, getKey]
      rw [if_neg (fun hh => h (hp ▸ hh).symm), ih]
    · simp only [popKey, if_neg hp, getKey]
      by_cases hp2 : p.1 = k2
      · rw [if_pos hp2, if_pos hp2]
      · rw [if_neg hp2, if_neg hp2, ih]

theorem getKey_finishMeta_latitude (c : Candidate) (m : Rec) :
    getKey (finishMeta c m) "latitude" = none := by
  rw [finishMeta]
  rw [getKey_setKey_ne _ _ _ _ (by decide)]
  rw [getKey_setKey_ne _ _ _ _ (by decide)]
  rw [getKey_popKey_ne _ _ _ (by decide)]
  exact getKey_popKey_self _ _

theorem getKey_finishMeta_longitude (c : Candidate) (m : Rec) :
    getKey (finishMeta c m) "longitude" = none := by
  rw [finishMeta]
  rw [getKey_setKey_ne _ _ _ _ (by decide)]
  rw [getKey_setKey_ne _ _ _ _ (by decide)]
  exact getKey_popKey_self _ _

theorem mem_searchLoop (f : Candidate → Option Rec) :
    ∀ (cs : List Candidate) (n : ℕ) (r : Rec), r ∈ searchLoop n f cs →
      ∃ c, c ∈ cs ∧ f c = some r := by
  intro cs
  induction cs with
  | nil => intro n r hr; simp [searchLoop] at hr
  | cons c cs ih =>
    intro n r hr
    cases hf : f c with
    | none =>
      simp only [searchLoop, hf] at hr
      obtain ⟨c2, hc2, hfc2⟩ := ih n r hr
      exact ⟨c2, List.mem_cons_of_mem _ hc2, hfc2⟩
    | some r2 =>
      simp only [searchLoop, hf] at hr
      by_cases hn : n ≤ 1
      · rw [if_pos hn] at hr
        simp only [List.mem_singleton] at hr
        exact ⟨c, List.mem_cons_self _ _, hr ▸ hf⟩
      · rw [if_neg hn] at hr
        cases List.mem_cons.mp hr with
        | inl heq => exact ⟨c, List.mem_cons_self _ _, heq ▸ hf⟩
        | inr hmem =>
          obtain ⟨c2, hc2, hfc2⟩ := ih (n - 1) r hmem
          exact ⟨c2, List.mem_cons_of_mem _ hc2, hfc2⟩

theorem processCandidate_shape (centerLat centerLon radiusMiles : Option ℚ)
    (c : Candidate) (r : Rec)
    (h : processCandidate centerLat centerLon radiusMiles c = some r) :
    ∃ m, r = finishMeta c m := by
  rcases centerLat with _ | ca <;> rcases centerLon with _ | co <;>
    rcases radiusMiles with _ | rad <;>
    simp only [processCandidate] at h
  all_goals try (injection h with hh; exact ⟨c.meta, hh.symm⟩)
  split at h
  all_goals try cases h
  split_ifs at h
  all_goals try cases h
  all_goals exact ⟨_, rfl⟩

theorem mem_insertKey (k : ScrapeKey) (l : List ScrapeKey) : k ∈ insertKey k l := by
  rw [insertKey]
  split_ifs with h
  · exact h
  · exact List.mem_cons_self _ _

theorem mem_insertKey_of_mem (k k2 : ScrapeKey) (l : List ScrapeKey) (h : k ∈ l) :
    k ∈ insertKey k2 l := by
  rw [insertKey]
  split_ifs with h2
  · exact h
  · exact List.mem_cons_of_mem _ h

theorem tryLaunch_true_mem (k : ScrapeKey) (s : ScrapeState)
    (h : (tryLaunch k s).2 = true) : k ∈ (tryLaunch k s).1.scraping := by
  by_cases hmem : k ∈ s.scraping
  · rw [tryLaunch, if_pos hmem] at h
    cases h
  · rw [tryLaunch, if_neg hmem]
    exact mem_insertKey k s.scraping

theorem tryLaunch_false_of_mem (k : ScrapeKey) (s : ScrapeState)
    (h : k ∈ s.scraping) : (tryLaunch k s).2 = false := by
  rw [tryLaunch, if_pos h]

theorem lazyBlock_launched_mem (cfg : Config) (q : String) (loc : Option String)
    (lz rs : Bool) (center : Option (ℚ × ℚ)) (res : List Rec) (st : ScrapeState) :
    (lazyScrapeBlock cfg q loc lz rs center res st).launched = true →
    (normLoc loc, cfg.lazyRadius) ∈
      (lazyScrapeBlock cfg q loc lz rs center res st).state.scraping := by
  simp only [lazyScrapeBlock]
  split_ifs <;>
    first
      | (intro hh; cases hh)
      | (intro hh; exact tryLaunch_true_mem _ _ hh)

theorem lazyBlock_not_launched_of_mem (cfg : Config) (q : String)
    (loc : Option String) (lz rs : Bool) (center : Option (ℚ × ℚ))
    (res : List Rec) (st : ScrapeState)
    (hmem : (normLoc loc, cfg.lazyRadius) ∈ st.scraping) :
    (lazyScrapeBlock cfg q loc lz rs center res st).launched = false := by
  simp only [lazyScrapeBlock]
  split_ifs <;> rfl

theorem search_trails_launched_mem (cfg : Config) (env : SearchEnv) (q : String)
    (n : ℕ) (loc : Option String) (rad : Option ℚ) (lz rs : Bool)
    (st : ScrapeState) (o : SearchOutput)
    (ho : search_trails cfg env q n loc rad lz rs st = some o)
    (h : o.launched = true) :
    (normLoc loc, cfg.lazyRadius) ∈ o.state.scraping := by
  simp only [search_trails] at ho
  split_ifs at ho
  all_goals try (injection ho with ho2; subst ho2; cases h)
  all_goals split at ho
  all_goals try cases ho
  all_goals exact lazyBlock_launched_mem _ _ _ _ _ _ _ _ h

theorem search_trails_not_launched_of_mem (cfg : Config) (env : SearchEnv)
    (q : String) (n : ℕ) (loc : Option String) (rad : Option ℚ) (lz rs : Bool)
    (st : ScrapeState) (hmem : (normLoc loc, cfg.lazyRadius) ∈ st.scraping)
    (o : SearchOutput)
    (ho : search_trails cfg env q n loc rad lz rs st = some o) :
    o.launched = false := by
  simp only [search_trails] at ho
  split_ifs at ho
  all_goals try (injection ho with ho2; subst ho2; rfl)
  all_goals split at ho
  all_goals try cases ho
  all_goals exact lazyBlock_not_launched_of_mem _ _ _ _ _ _ _ _ hmem

/-! ## Concrete fixtures used by witnesses and counterexamples -/

/-- An empty vector store (`collection.count() == 0`). -/
def emptyStore : WTAVectorStore := ⟨0, fun _ => [], []⟩

/-- The default configuration values of `wta/config.py`. -/
def baseCfg : Config := ⟨20, 50, true, true⟩

/-- Like `baseCfg` but with fresh-RAG enrichment disabled
(`WTA_ENABLE_FRESH_RAG=false`). -/
def noRagCfg : Config := ⟨20, 50, false, true⟩

/-- An environment whose geocoder resolves to (47, -121) over an empty
store. -/
def geoOkEnv : SearchEnv :=
  ⟨Except.ok [⟨some 47, -121⟩], emptyStore, fun _ => FetchEnv.raised⟩

/-- The initial scrape state (no key in progress, none done). -/
def st0 : ScrapeState := ⟨[], []⟩

/-! ## Claims -/

theorem mem_tryLaunch_state (k : ScrapeKey) (s : ScrapeState) :
    k ∈ (tryLaunch k s).1.scraping := by
  by_cases h : k ∈ s.scraping
  · rw [tryLaunch, if_pos h]
    exact h
  · rw [tryLaunch, if_neg h]
    exact mem_insertKey k s.scraping

/-- C1: For every (normalized location, wide radius) key, if two
`search_trails` calls both satisfy the lazy-scrape trigger conditions for
that key, at most one background scrape is launched.  The membership check
and insertion into the in-progress set happen atomically under the single
scraping lock: the whole check-insert-start block of handlers.py lines
188-206 is modelled as the atomic step `tryLaunch`, and the first conjunct
states the interleaving-independent core — whatever a call read earlier,
a second `tryLaunch` of the same key (after any first one) finds the key
already in the in-progress set and starts no thread.  The remaining
conjunct is the whole-call version: once one call has launched, a further
call for the same key from the resulting state launches nothing. -/
theorem C1_concurrent_single_launch (cfg1 cfg2 : Config) (env1 env2 : SearchEnv)
    (q1 q2 : String) (n1 n2 : ℕ) (loc1 loc2 : Option String)
    (r1 r2 : Option ℚ) (lz1 lz2 rs1 rs2 : Bool) (st : ScrapeState)
    (o1 o2 : SearchOutput)
    (ho1 : search_trails cfg1 env1 q1 n1 loc1 r1 lz1 rs1 st = some o1)
    (hlaunch : o1.launched = true)
    (hkey : (normLoc loc2, cfg2.lazyRadius) = (normLoc loc1, cfg1.lazyRadius))
    (ho2 : search_trails cfg2 env2 q2 n2 loc2 r2 lz2 rs2 o1.state = some o2) :
    (∀ (k : ScrapeKey) (s : ScrapeState),
      (tryLaunch k (tryLaunch k s).1).2 = false) ∧
    o2.launched = false := by
  constructor
  · intro k s
    exact tryLaunch_false_of_mem _ _ (mem_tryLaunch_state k s)
  · have hmem := search_trails_launched_mem cfg1 env1 q1 n1 loc1 r1 lz1 rs1 st
      o1 ho1 hlaunch
    exact search_trails_not_launched_of_mem cfg2 env2 q2 n2 loc2 r2 lz2 rs2 _
      (hkey ▸ hmem) o2 ho2

/-- Witness for C1 at a concrete input: over an empty store with a geocoded
location, the first call launches a background scrape and a second
identical call started from the resulting state does not. -/
theorem C1_witness :
    search_trails baseCfg geoOkEnv "waterfalls" 5 (some "North Bend") none
      true false st0 =
      some ⟨[fetchingStartedAdv "North Bend"], 2, true,
        ⟨[("north bend", 50)], []⟩⟩ ∧
    search_trails baseCfg geoOkEnv "waterfalls" 5 (some "North Bend") none
      true false (⟨[("north bend", 50)], []⟩ : ScrapeState) =
      some ⟨[fetchingAdv "North Bend"], 2, false, ⟨[("north bend", 50)], []⟩⟩ ∧
    (⟨[fetchingAdv "North Bend"], 2, false,
      ⟨[("north bend", 50)], []⟩⟩ : SearchOutput).launched = false :=
  ⟨by decide, by decide,
    (C1_concurrent_single_launch baseCfg baseCfg geoOkEnv geoOkEnv
      "waterfalls" "waterfalls" 5 5 (some "North Bend") (some "North Bend")
      none none true true false false st0
      ⟨[fetchingStartedAdv "North Bend"], 2, true, ⟨[("north bend", 50)], []⟩⟩
      ⟨[fetchingAdv "North Bend"], 2, false, ⟨[("north bend", 50)], []⟩⟩
      (by decide) (by decide) rfl (by decide)).2⟩

/-- C2 fails on the code: right after the background scrape marks the key
done (`_scraped_locations.add(loc_key)`, handlers.py lines 196-197), and
before the `finally` block discards the in-progress entry (lines 201-203),
the key is in both scrape-state sets.  The state below is reached one step
into the trace of a successful scrape, starting from the state the launch
left behind. -/
theorem C2_counterexample :
    (runScrapeOps ScrapePhase.gotTrails).take 1 = [ScrapeOp.markDone] ∧
    (("north bend", (50 : ℚ)) ∈
        (applyOp ("north bend", (50 : ℚ)) ⟨[("north bend", 50)], []⟩
          ScrapeOp.markDone).scraping ∧
      ("north bend", (50 : ℚ)) ∈
        (applyOp ("north bend", (50 : ℚ)) ⟨[("north bend", 50)], []⟩
          ScrapeOp.markDone).scraped) := by
  decide

/-- C2 (amended): the key may transiently be in both scrape-state sets.  In
every possible trace of the background scrape thread, all done-markings
happen strictly before the single `finally` release, so the key is still
in the in-progress set when it enters the completed set; after the full
trace the key is out of the in-progress set, and (unless the thread
raised) it is in the completed set. -/
theorem C2_done_entry_while_in_progress (p : ScrapePhase) (k : ScrapeKey)
    (s0 : ScrapeState) (hmem : k ∈ s0.scraping)
    (hcount : s0.scraping.count k = 1) :
    runScrapeOps p = List.replicate (numMarks p) ScrapeOp.markDone ++ [ScrapeOp.release] ∧
    (p ≠ ScrapePhase.raised →
      k ∈ (applyOps k s0 ((runScrapeOps p).take (numMarks p))).scraping ∧
        k ∈ (applyOps k s0 ((runScrapeOps p).take (numMarks p))).scraped) ∧
    k ∉ (applyOps k s0 (runScrapeOps p)).scraping ∧
    (p ≠ ScrapePhase.raised → k ∈ (applyOps k s0 (runScrapeOps p)).scraped) := by
  have herase : ∀ l : List ScrapeKey, l.count k = 1 → k ∉ l.erase k := by
    intro l hl
    intro hk
    have := List.count_erase_self k l
    rw [hl] at this
    have hpos := List.count_pos_iff.mpr hk
    omega
  cases p with
  | raised =>
    refine ⟨rfl, fun h => absurd rfl h, ?_, fun h => absurd rfl h⟩
    simpa [runScrapeOps, applyOps, applyOp] using herase _ hcount
  | geocodeFail =>
    refine ⟨rfl, fun _ => ⟨hmem, mem_insertKey _ _⟩, ?_, fun _ => ?_⟩
    · simpa [runScrapeOps, applyOps, applyOp] using herase _ hcount
    · simpa [runScrapeOps, applyOps, applyOp] using mem_insertKey k s0.scraped
  | noTrails =>
    refine ⟨rfl, fun _ => ⟨hmem, mem_insertKey _ _⟩, ?_, fun _ => ?_⟩
    · simpa [runScrapeOps, applyOps, applyOp] using herase _ hcount
    · simpa [runScrapeOps, applyOps, applyOp] using mem_insertKey k s0.scraped
  | gotTrails =>
    refine ⟨rfl, fun _ => ⟨hmem, ?_⟩, ?_, fun _ => ?_⟩
    · simpa [runScrapeOps, numMarks, applyOps, applyOp] using
        mem_insertKey_of_mem _ _ _ (mem_insertKey k s0.scraped)
    · simpa [runScrapeOps, applyOps, applyOp] using herase _ hcount
    · simpa [runScrapeOps, applyOps, applyOp] using
        mem_insertKey_of_mem _ _ _ (mem_insertKey k s0.scraped)

/-- Witness for the amended C2 at a concrete input: a successful scrape of
the key ("north bend", 50) starting right after its launch. -/
theorem C2_witness :
    (("north bend", (50 : ℚ)) ∈ (⟨[("north bend", 50)], []⟩ : ScrapeState).scraping ∧
      (⟨[("north bend", 50)], []⟩ : ScrapeState).scraping.count ("north bend", (50 : ℚ)) = 1) ∧
    (("north bend", (50 : ℚ)) ∉
        (applyOps ("north bend", (50 : ℚ)) ⟨[("north bend", 50)], []⟩
          (runScrapeOps ScrapePhase.gotTrails)).scraping ∧
      (ScrapePhase.gotTrails ≠ ScrapePhase.raised →
        ("north bend", (50 : ℚ)) ∈
          (applyOps ("north bend", (50 : ℚ)) ⟨[("north bend", 50)], []⟩
            (runScrapeOps ScrapePhase.gotTrails)).scraped)) :=
  ⟨⟨by decide, by decide⟩,
    ⟨(C2_done_entry_while_in_progress ScrapePhase.gotTrails ("north bend", (50 : ℚ))
        ⟨[("north bend", 50)], []⟩ (by decide) (by decide)).2.2.1,
      (C2_done_entry_while_in_progress ScrapePhase.gotTrails ("north bend", (50 : ℚ))
        ⟨[("north bend", 50)], []⟩ (by decide) (by decide)).2.2.2⟩⟩

/-- C3: with a truthy location whose geocoding yields no coordinate (empty
result list, missing latitude, or a raised exception — exactly the cases
in which `resolveCenter` is `none`), `search_trails` returns the
`_geocode_failed` advisory, issues no vector-store query, launches no
background scrape, and leaves the scrape state untouched. -/
theorem C3_geocode_failure_advisory (cfg : Config) (env : SearchEnv)
    (query : String) (nResults : ℕ) (location : Option String)
    (radiusMiles : Option ℚ) (lazyScrape rescrape : Bool) (st : ScrapeState)
    (hloc : strTruthy location = true)
    (hgeo : resolveCenter env.geo = none) :
    search_trails cfg env query nResults location radiusMiles lazyScrape
        rescrape st =
      some ⟨[geocodeFailedAdv (location.getD "")], 0, false, st⟩ := by
  simp only [search_trails, hloc, if_true, hgeo]
  simp

/-- An environment whose geocoder raises, over an empty store. -/
def geoFailEnv : SearchEnv := ⟨Except.error (), emptyStore, fun _ => FetchEnv.raised⟩

/-- Witness for C3 at a concrete input: an environment whose geocoder raises. -/
theorem C3_witness :
    strTruthy (some "Atlantis") = true ∧
    resolveCenter geoFailEnv.geo = none ∧
    search_trails baseCfg geoFailEnv "waterfalls" 5 (some "Atlantis") none
        true false st0 =
      some ⟨[geocodeFailedAdv "Atlantis"], 0, false, st0⟩ :=
  ⟨by decide, rfl,
    C3_geocode_failure_advisory baseCfg geoFailEnv "waterfalls" 5
      (some "Atlantis") none true false st0 (by decide) rfl⟩

/-- C9: the great-circle distance function `_haversine_miles` is zero on
identical points and symmetric in its two coordinate pairs. -/
theorem C9_haversine_zero_and_symmetric :
    (∀ lat lon : ℝ, _haversine_miles lat lon lat lon = 0) ∧
    (∀ lat1 lon1 lat2 lon2 : ℝ,
      _haversine_miles lat1 lon1 lat2 lon2 = _haversine_miles lat2 lon2 lat1 lon1) :=
  ⟨haversine_self, haversine_comm⟩

/-- C6: with a resolved center and an effective radius equal to the
configured default, if the first search returns fewer than 3 results the
search is repeated exactly once with the configured wide radius (the full
call issues exactly 2 vector-store queries), and the wider result set
replaces the original one if and only if it is strictly larger. -/
theorem C6_wider_radius_retry (cfg : Config) (env : SearchEnv) (query : String)
    (nResults : ℕ) (location : Option String) (radiusMiles : Option ℚ)
    (lazyScrape rescrape : Bool) (st : ScrapeState) (c : ℚ × ℚ)
    (hloc : strTruthy location = true)
    (hgeo : resolveCenter env.geo = some c)
    (hrad : radiusMiles.getD cfg.defaultRadius = cfg.defaultRadius)
    (hfew : (env.store.search query nResults (some c.1) (some c.2)
        (if centerTruthy (some c) then some cfg.defaultRadius else none)).length < 3)
    (o : SearchOutput)
    (ho : search_trails cfg env query nResults location radiusMiles lazyScrape
      rescrape st = some o) :
    searchWithRetry cfg env.store query nResults (some c) radiusMiles =
      ((if (env.store.search query nResults (some c.1) (some c.2)
            (if centerTruthy (some c) then some cfg.defaultRadius else none)).length <
            (env.store.search query nResults (some c.1) (some c.2)
              (some cfg.lazyRadius)).length
        then env.store.search query nResults (some c.1) (some c.2)
          (some cfg.lazyRadius)
        else env.store.search query nResults (some c.1) (some c.2)
          (if centerTruthy (some c) then some cfg.defaultRadius else none)), 2) ∧
    o.queries = 2 := by
  have h1 : searchWithRetry cfg env.store query nResults (some c) radiusMiles =
      ((if (env.store.search query nResults (some c.1) (some c.2)
            (if centerTruthy (some c) then some cfg.defaultRadius else none)).length <
            (env.store.search query nResults (some c.1) (some c.2)
              (some cfg.lazyRadius)).length
        then env.store.search query nResults (some c.1) (some c.2)
          (some cfg.lazyRadius)
        else env.store.search query nResults (some c.1) (some c.2)
          (if centerTruthy (some c) then some cfg.defaultRadius else none)), 2) := by
    simp only [searchWithRetry, hrad, Option.map_some']
    rw [if_pos ⟨rfl, trivial, hfew⟩]
  refine ⟨h1, ?_⟩
  simp only [search_trails, hloc, if_true, hgeo] at ho
  rw [if_neg (by simp)] at ho
  split at ho
  · cases ho
  · injection ho with ho2
    subst ho2
    simp only [h1]

/-- Witness for C6 at a concrete input: an empty store with a resolved
center and the default radius. -/
theorem C6_witness :
    strTruthy (some "North Bend") = true ∧
    resolveCenter geoOkEnv.geo = some ((47 : ℚ), (-121 : ℚ)) ∧
    (none : Option ℚ).getD baseCfg.defaultRadius = baseCfg.defaultRadius ∧
    (geoOkEnv.store.search "waterfalls" 5 (some (47 : ℚ)) (some (-121 : ℚ))
      (if centerTruthy (some ((47 : ℚ), (-121 : ℚ))) then some baseCfg.defaultRadius
        else none)).length < 3 ∧
    search_trails baseCfg geoOkEnv "waterfalls" 5 (some "North Bend") none
        true false st0 =
      some ⟨[fetchingStartedAdv "North Bend"], 2, true,
        ⟨[("north bend", 50)], []⟩⟩ ∧
    (⟨[fetchingStartedAdv "North Bend"], 2, true,
      ⟨[("north bend", 50)], []⟩⟩ : SearchOutput).queries = 2 :=
  ⟨by decide, rfl, rfl, by decide, by decide,
    (C6_wider_radius_retry baseCfg geoOkEnv "waterfalls" 5 (some "North Bend")
      none true false st0 ((47 : ℚ), (-121 : ℚ)) (by decide) rfl rfl (by decide)
      ⟨[fetchingStartedAdv "North Bend"], 2, true, ⟨[("north bend", 50)], []⟩⟩
      (by decide)).2⟩

/-- A ranked candidate without any stored coordinate. -/
def noCoordCand : Candidate := ⟨[("name", Val.str "far trail")], none, none⟩

/-- A ranked candidate whose grouped `location` JSON is exactly (47, -120). -/
def centerCand : Candidate :=
  ⟨[("location", Val.jstr (Val.obj (FieldList.ofList
      [("latitude", Val.num 47), ("longitude", Val.num (-120))])))], none, none⟩

/-- A two-record store that ranks the coordinate-free candidate first. -/
def cexStore : WTAVectorStore := ⟨2, fun _ => [noCoordCand, centerCand], []⟩

theorem processCandidate_noCoord :
    processCandidate (some 47) (some (-120)) (some 0) noCoordCand = none := rfl

theorem processCandidate_center :
    processCandidate (some 47) (some (-120)) (some 0) centerCand =
      some (finishMeta centerCand (setKey centerCand.meta "distance_miles"
        (Val.num (pyRound2 (_haversine_miles ((47 : ℚ) : ℝ) ((-120 : ℚ) : ℝ)
          ((47 : ℚ) : ℝ) ((-120 : ℚ) : ℝ)))))) := by
  simp only [processCandidate]
  rw [show candidateCoord centerCand.meta = (some (47 : ℚ), some (-120 : ℚ)) from rfl]
  simp only
  rw [if_neg]
  rw [haversine_self]
  push_cast
  norm_num

/-- C4 fails on the code as stated: the over-fetch is keyed on Python
truthiness (`center_lat and center_lon and radius_miles`), not on the
arguments being supplied.  With the radius 0 supplied (center (47, -120)),
the wrapper fetches only `limit` candidates instead of `limit × 20`: the
sole fetched candidate has no coordinate and is discarded, so the search
returns nothing, while the spec-described pipeline fetches past it and
returns the in-radius record at the center. -/
theorem C4_counterexample :
    WTAVectorStore.search cexStore "ledge" 1 (some 47) (some (-120)) (some 0) ≠
      searchGeoSpec cexStore "ledge" 1 47 (-120) 0 := by
  have hL : WTAVectorStore.search cexStore "ledge" 1 (some 47) (some (-120))
      (some 0) = [] := rfl
  have hR : (searchGeoSpec cexStore "ledge" 1 47 (-120) 0).length = 1 := by
    simp only [searchGeoSpec]
    rw [if_neg (by decide : ¬cexStore.count = 0)]
    rw [show (cexStore.ranking "ledge").take (min (1 * 20) cexStore.count) =
      [noCoordCand, centerCand] from rfl]
    simp only [List.filterMap_cons, processCandidate_noCoord, processCandidate_center]
    simp
  intro heq
  rw [hL] at heq
  have hlen := congrArg List.length heq
  rw [hR] at hlen
  cases hlen

/-- C4 (amended): the spec-described geo pipeline is what the wrapper
computes whenever the supplied center latitude, center longitude and
radius are all nonzero (Python-truthy); a zero among them only disables
the `limit × 20` over-fetch, while the distance filter itself still runs
(it is keyed on `is not None`). -/
theorem C4_geo_search_refines_spec (store : WTAVectorStore) (query : String)
    (nResults : ℕ) (clat clon rad : ℚ)
    (h1 : clat ≠ 0) (h2 : clon ≠ 0) (h3 : rad ≠ 0) :
    WTAVectorStore.search store query nResults (some clat) (some clon) (some rad) =
      searchGeoSpec store query nResults clat clon rad := by
  rw [WTAVectorStore.search, searchGeoSpec]
  by_cases hc : store.count = 0
  · rw [if_pos hc, if_pos hc]
  · rw [if_neg hc, if_neg hc]
    have ht : (optTruthy (some clat) && optTruthy (some clon) &&
        optTruthy (some rad)) = true := by
      simp [optTruthy, bne_iff_ne, h1, h2, h3]
    rw [if_pos ht]
    rcases Nat.eq_zero_or_pos nResults with hn | hn
    · subst hn
      simp [searchLoop]
    · exact searchLoop_eq_take_filterMap _ _ _ hn

/-- Witness for the amended C4 at a concrete input: the two-record store
with a truthy center and radius. -/
theorem C4_witness :
    (47 : ℚ) ≠ 0 ∧ (-120 : ℚ) ≠ 0 ∧ (20 : ℚ) ≠ 0 ∧
    WTAVectorStore.search cexStore "ledge" 1 (some 47) (some (-120)) (some 20) =
      searchGeoSpec cexStore "ledge" 1 47 (-120) 20 :=
  ⟨by decide, by decide, by decide,
    C4_geo_search_refines_spec cexStore "ledge" 1 47 (-120) 20
      (by decide) (by decide) (by decide)⟩

/-- A stored search result with a slug and a non-empty stored alert list. -/
def alertRec : Rec :=
  [("slug", Val.str "rattlesnake-ledge"),
   ("alerts", Val.arr (ValList.ofList [Val.str "Bridge out at mile 2"])),
   ("trip_reports", Val.arr ValList.nil)]

theorem getKey_applyFresh_slug (r : Rec) (fresh : List String × List Val) :
    getKey (applyFresh r fresh) "slug" = getKey r "slug" := by
  rw [applyFresh]
  rw [getKey_setKey_ne _ _ _ _ (by decide)]
  rw [getKey_setKey_ne _ _ _ _ (by decide)]

theorem getKey_enrichOne_slug (fc : Bool) (env : FetchEnv) (r : Rec) :
    getKey (enrichOne fc env r) "slug" = getKey r "slug" := by
  cases env <;> simp [enrichOne, fetch_fresh_trail_info, getKey_applyFresh_slug]

/-- C5 fails on the code as stated: an HTTP failure of the live re-fetch is
caught inside `fetch_fresh_trail_info` (scraper.py lines 515-519) and
returned as empty `alerts`/`trip_reports` lists, which the enrichment loop
then writes over the trail's stored alerts — the stored alert list does
not remain unchanged. -/
theorem C5_counterexample :
    enrichOne true FetchEnv.httpFail alertRec ≠ alertRec ∧
    getKey (enrichOne true FetchEnv.httpFail alertRec) "alerts" =
      some (Val.arr ValList.nil) ∧
    getKey alertRec "alerts" =
      some (Val.arr (ValList.ofList [Val.str "Bridge out at mile 2"])) := by
  decide

/-- C5 (amended): only an exception that escapes to `future.result()` leaves
the trail's stored data untouched; an HTTP failure inside the fetch is
swallowed and replaces the stored alerts and trip reports with empty
lists.  In all cases the enrichment never removes a trail from the result
set: the result count and the per-position slugs are preserved. -/
theorem C5_enrichment_failure_behavior :
    (∀ (fc : Bool) (r : Rec), enrichOne fc FetchEnv.raised r = r) ∧
    (∀ (fc : Bool) (r : Rec),
      enrichOne fc FetchEnv.httpFail r = applyFresh r ([], [])) ∧
    (∀ (cfg : Config) (fetch : String → FetchEnv) (results out : List Rec),
      enrichResults cfg fetch results = some out →
      out.length = results.length ∧
      out.map (fun r => getKey r "slug") =
        results.map (fun r => getKey r "slug")) ∧
    (∀ (cfg : Config) (fetch : String → FetchEnv) (results : List Rec),
      enrichResults cfg fetch results = none ↔
        results ≠ [] ∧ cfg.enableFreshRag = true ∧
          results.any slugTruthy = false) := by
  refine ⟨fun fc r => rfl, fun fc r => rfl,
    fun cfg fetch results out hout => ?_, fun cfg fetch results => ?_⟩
  · rw [enrichResults] at hout
    split_ifs at hout with h h2
    · injection hout with hout2
      subst hout2
      constructor
      · exact List.length_map _ _
      · rw [List.map_map]
        apply List.map_congr_left
        intro r hr
        simp only [Function.comp]
        rcases hslug : getKey r "slug" with _ | v
        · exact hslug
        · cases v
          all_goals try exact hslug
          rename_i s
          simp only
          split_ifs with hs
          · exact hslug
          · rw [getKey_enrichOne_slug]
            exact hslug
    all_goals try cases hout
    all_goals exact ⟨rfl, rfl⟩
  · rw [enrichResults]
    split_ifs with h h2
    · simp [h2]
    · constructor
      · intro _
        exact ⟨h.1, h.2, by simpa using h2⟩
      · intro _
        rfl
    · constructor
      · intro hh
        cases hh
      · rintro ⟨hne, hrag, _⟩
        exact absurd ⟨hne, hrag⟩ h

/-- Witness for the amended C5 at a concrete input: a single slugged result
whose re-fetch raises; the enrichment pool is valid and the result list
comes back with the same length and slugs. -/
theorem C5_witness :
    enrichResults baseCfg (fun _ => FetchEnv.raised) [alertRec] =
      some [alertRec] ∧
    ([alertRec] : List Rec).length = ([alertRec] : List Rec).length ∧
    ([alertRec] : List Rec).map (fun r => getKey r "slug") =
      ([alertRec] : List Rec).map (fun r => getKey r "slug") :=
  ⟨by decide,
    (C5_enrichment_failure_behavior.2.2.1 baseCfg (fun _ => FetchEnv.raised)
      [alertRec] [alertRec] (by decide)).1,
    (C5_enrichment_failure_behavior.2.2.1 baseCfg (fun _ => FetchEnv.raised)
      [alertRec] [alertRec] (by decide)).2⟩

theorem lazyBlock_no_advisory (cfg : Config) (q : String) (loc : Option String)
    (lz rs : Bool) (center : Option (ℚ × ℚ)) (results : List Rec)
    (st : ScrapeState) (hne : results ≠ [])
    (hskip : normLoc loc ∉ _LAZY_SCRAPE_SKIP_LOCATIONS)
    (hfeat : hasFeatureWord (normLoc loc) = false) :
    (lazyScrapeBlock cfg q loc lz rs center results st).advisory = none := by
  simp only [lazyScrapeBlock]
  split_ifs <;> first | rfl | simp_all

/-- A one-record store holding only the coordinate-free candidate. -/
def oneRecStore : WTAVectorStore := ⟨1, fun _ => [noCoordCand], []⟩

/-- An environment whose geocoder resolves to latitude exactly 0 (which is
falsy in Python, so the primary search runs unfiltered) over the
one-record store. -/
def zeroLatEnv : SearchEnv :=
  ⟨Except.ok [⟨some 0, -120⟩], oneRecStore, fun _ => FetchEnv.raised⟩

/-- C7 fails on the code as stated: a call whose trigger conditions hold
(location given, geocoded, lazy scrape on) and whose result set is
non-empty with fewer than 3 entries still returns a `_skip_scrape`
advisory — discarding the results — when the location is on the deny
list (handlers.py lines 151-155 run before the few-results pass-through). -/
theorem C7_counterexample :
    (enrichResults noRagCfg zeroLatEnv.fetch
        (searchWithRetry noRagCfg zeroLatEnv.store "ledge" 5
          (some ((0 : ℚ), (-120 : ℚ))) none).1 =
      some [[("name", Val.str "far trail"), ("score", Val.null),
        ("snippet", Val.null)]] ∧
      ([[("name", Val.str "far trail"), ("score", Val.null),
        ("snippet", Val.null)]] : List Rec) ≠ [] ∧
      ([[("name", Val.str "far trail"), ("score", Val.null),
        ("snippet", Val.null)]] : List Rec).length < 3 ∧
      resolveCenter zeroLatEnv.geo = some ((0 : ℚ), (-120 : ℚ))) ∧
    search_trails noRagCfg zeroLatEnv "ledge" 5 (some "Washington") none true
        false st0 =
      some ⟨[skipBroadAdv "Washington"], 2, false, st0⟩ ∧
    getKey (skipBroadAdv "Washington") "_skip_scrape" = some (Val.bool true) ∧
    ([skipBroadAdv "Washington"] : List Rec) ≠
      [[("name", Val.str "far trail"), ("score", Val.null),
        ("snippet", Val.null)]] := by
  decide

/-- C7 (amended): with the trigger conditions holding, a non-empty result
set below the threshold is returned as-is, provided additionally that the
normalized location is neither on the deny list nor contains a
trail-feature word (those checks run first and return a `_skip_scrape`
advisory instead). -/
theorem C7_few_results_returned (cfg : Config) (env : SearchEnv) (query : String)
    (nResults : ℕ) (location : Option String) (radiusMiles : Option ℚ)
    (rescrape : Bool) (st : ScrapeState) (c : ℚ × ℚ) (results : List Rec)
    (hloc : strTruthy location = true)
    (hgeo : resolveCenter env.geo = some c)
    (hres : enrichResults cfg env.fetch
      (searchWithRetry cfg env.store query nResults (some c) radiusMiles).1 =
      some results)
    (hne : results ≠ [])
    (hfew : results.length < 3)
    (hskip : normLoc location ∉ _LAZY_SCRAPE_SKIP_LOCATIONS)
    (hfeat : hasFeatureWord (normLoc location) = false)
    (o : SearchOutput)
    (ho : search_trails cfg env query nResults location radiusMiles true
      rescrape st = some o) :
    o.result = results := by
  simp only [search_trails, hloc, if_true, hgeo] at ho
  rw [if_neg (by simp)] at ho
  rw [hres] at ho
  injection ho with ho2
  subst ho2
  simp only
  rw [lazyBlock_no_advisory cfg query location true rescrape (some c) results
    st hne hskip hfeat]

/-- Witness for the amended C7 at a concrete input: one stored record, a
resolved center, and a location passing the deny-list checks. -/
theorem C7_witness :
    (enrichResults noRagCfg zeroLatEnv.fetch
        (searchWithRetry noRagCfg zeroLatEnv.store "ledge" 5
          (some ((0 : ℚ), (-120 : ℚ))) none).1 =
      some [[("name", Val.str "far trail"), ("score", Val.null),
        ("snippet", Val.null)]] ∧
      normLoc (some "North Bend") ∉ _LAZY_SCRAPE_SKIP_LOCATIONS ∧
      search_trails noRagCfg zeroLatEnv "ledge" 5 (some "North Bend") none
          true false st0 =
        some ⟨[[("name", Val.str "far trail"), ("score", Val.null),
          ("snippet", Val.null)]], 2, true, ⟨[("north bend", 50)], []⟩⟩) ∧
    (⟨[[("name", Val.str "far trail"), ("score", Val.null),
      ("snippet", Val.null)]], 2, true,
      ⟨[("north bend", 50)], []⟩⟩ : SearchOutput).result =
      [[("name", Val.str "far trail"), ("score", Val.null),
        ("snippet", Val.null)]] :=
  ⟨⟨by decide, by decide, by decide⟩,
    C7_few_results_returned noRagCfg zeroLatEnv "ledge" 5 (some "North Bend")
      none false st0 ((0 : ℚ), (-120 : ℚ))
      [[("name", Val.str "far trail"), ("score", Val.null),
        ("snippet", Val.null)]]
      (by decide) rfl (by decide) (by decide) (by decide) (by decide)
      (by decide)
      ⟨[[("name", Val.str "far trail"), ("score", Val.null),
        ("snippet", Val.null)]], 2, true, ⟨[("north bend", 50)], []⟩⟩
      (by decide)⟩

theorem lazyBlock_already_scraped (cfg : Config) (q : String)
    (loc : Option String) (center : Option (ℚ × ℚ)) (st : ScrapeState)
    (hloc : strTruthy loc = true) (hcenter : center.isSome = true)
    (hskip : normLoc loc ∉ _LAZY_SCRAPE_SKIP_LOCATIONS)
    (hfeat : hasFeatureWord (normLoc loc) = false)
    (hquery : normLoc loc ≠ pyStrip (pyLower q))
    (hdone : (normLoc loc, cfg.lazyRadius) ∈ st.scraped) :
    lazyScrapeBlock cfg q loc true false center [] st =
      ⟨some (alreadyScrapedAdv (loc.getD "")), false, st⟩ := by
  simp only [lazyScrapeBlock]
  split_ifs <;> first | rfl | simp_all

/-- C8 fails on the code as stated: even with the key in the completed set,
no forced rescrape and zero results, the call returns a `_skip_scrape`
advisory — not `_already_scraped` — when the normalized location equals
the normalized query (handlers.py lines 161-165 run before the scrape
state is consulted). -/
theorem C8_counterexample :
    (normLoc (some "north bend"), baseCfg.lazyRadius) ∈
      (⟨[], [("north bend", 50)]⟩ : ScrapeState).scraped ∧
    search_trails baseCfg geoOkEnv "north bend" 5 (some "north bend") none
        true false ⟨[], [("north bend", 50)]⟩ =
      some ⟨[skipQueryAdv "north bend"], 2, false, ⟨[], [("north bend", 50)]⟩⟩ ∧
    getKey (skipQueryAdv "north bend") "_already_scraped" = none ∧
    getKey (skipQueryAdv "north bend") "_skip_scrape" = some (Val.bool true) := by
  decide

/-- C8 (amended): with the trigger conditions holding, the key in the
completed set, no forced rescrape and zero results, the call returns the
`_already_scraped` advisory, launches nothing and leaves the state
unchanged — provided additionally that the normalized location passes the
deny-list, feature-word and location-equals-query checks, which run
first. -/
theorem C8_already_scraped_advisory (cfg : Config) (env : SearchEnv)
    (query : String) (nResults : ℕ) (location : Option String)
    (radiusMiles : Option ℚ) (st : ScrapeState) (c : ℚ × ℚ)
    (hloc : strTruthy location = true)
    (hgeo : resolveCenter env.geo = some c)
    (hres : enrichResults cfg env.fetch
      (searchWithRetry cfg env.store query nResults (some c) radiusMiles).1 =
      some [])
    (hskip : normLoc location ∉ _LAZY_SCRAPE_SKIP_LOCATIONS)
    (hfeat : hasFeatureWord (normLoc location) = false)
    (hquery : normLoc location ≠ pyStrip (pyLower query))
    (hdone : (normLoc location, cfg.lazyRadius) ∈ st.scraped) :
    search_trails cfg env query nResults location radiusMiles true false st =
      some ⟨[alreadyScrapedAdv (location.getD "")],
        (searchWithRetry cfg env.store query nResults (some c) radiusMiles).2,
        false, st⟩ := by
  simp only [search_trails, hloc, if_true, hgeo]
  rw [if_neg (by simp)]
  rw [hres]
  simp only
  rw [lazyBlock_already_scraped cfg query location (some c) st hloc rfl hskip
    hfeat hquery hdone]

/-- Witness for the amended C8 at a concrete input: an empty store, a
resolved center, and the key already in the completed set. -/
theorem C8_witness :
    ((normLoc (some "north bend"), baseCfg.lazyRadius) ∈
        (⟨[], [("north bend", 50)]⟩ : ScrapeState).scraped ∧
      enrichResults baseCfg geoOkEnv.fetch
        (searchWithRetry baseCfg geoOkEnv.store "waterfalls" 5
          (some ((47 : ℚ), (-121 : ℚ))) none).1 = some [] ∧
      normLoc (some "north bend") ≠ pyStrip (pyLower "waterfalls")) ∧
    search_trails baseCfg geoOkEnv "waterfalls" 5 (some "north bend") none
        true false ⟨[], [("north bend", 50)]⟩ =
      some ⟨[alreadyScrapedAdv "north bend"],
        (searchWithRetry baseCfg geoOkEnv.store "waterfalls" 5
          (some ((47 : ℚ), (-121 : ℚ))) none).2,
        false, ⟨[], [("north bend", 50)]⟩⟩ :=
  ⟨⟨by decide, by decide, by decide⟩,
    C8_already_scraped_advisory baseCfg geoOkEnv "waterfalls" 5
      (some "north bend") none ⟨[], [("north bend", 50)]⟩ ((47 : ℚ), (-121 : ℚ))
      (by decide) rfl (by decide) (by decide) (by decide) (by decide)
      (by decide)⟩

/-- C10: every record returned by `WTAVectorStore.search` and
`WTAVectorStore.list_all` has no top-level `latitude` or `longitude` key
(the flat keys are popped before the record is returned; the coordinate
survives only inside the grouped `location` object). -/
theorem C10_no_flat_coordinates (store : WTAVectorStore) (query : String)
    (nResults : ℕ) (centerLat centerLon radiusMiles : Option ℚ) (r : Rec) :
    (r ∈ store.search query nResults centerLat centerLon radiusMiles →
      getKey r "latitude" = none ∧ getKey r "longitude" = none) ∧
    (r ∈ store.list_all →
      getKey r "latitude" = none ∧ getKey r "longitude" = none) := by
  constructor
  · intro hr
    simp only [WTAVectorStore.search] at hr
    split_ifs at hr
    all_goals try cases hr
    all_goals {
      obtain ⟨c, hcmem, hfc⟩ := mem_searchLoop _ _ _ _ hr
      obtain ⟨m, rfl⟩ := processCandidate_shape _ _ _ _ _ hfc
      exact ⟨getKey_finishMeta_latitude _ _, getKey_finishMeta_longitude _ _⟩ }
  · intro hr
    simp only [WTAVectorStore.list_all, List.mem_map] at hr
    obtain ⟨m, hm, rfl⟩ := hr
    constructor
    · rw [getKey_popKey_ne _ _ _ (by decide)]
      exact getKey_popKey_self _ _
    · exact getKey_popKey_self _ _

/-- A store with one fully stored record carrying legacy flat coordinate
keys, both in the ranking and in the raw metadata listing. -/
def flatKeyStore : WTAVectorStore :=
  ⟨1,
   fun _ => [⟨[("name", Val.str "Rattlesnake Ledge"), ("latitude", Val.num 47),
     ("longitude", Val.num (-121))], none, none⟩],
   [[("name", Val.str "Rattlesnake Ledge"), ("latitude", Val.num 47),
     ("longitude", Val.num (-121))]]⟩

/-- Witness for C10 at a concrete input: the record with flat coordinate
keys comes back from both operations with those keys removed. -/
theorem C10_witness :
    ([("name", Val.str "Rattlesnake Ledge"), ("score", Val.null),
        ("snippet", Val.null)] ∈ flatKeyStore.search "ledge" 5 none none none ∧
      (getKey [("name", Val.str "Rattlesnake Ledge"), ("score", Val.null),
          ("snippet", Val.null)] "latitude" = none ∧
        getKey [("name", Val.str "Rattlesnake Ledge"), ("score", Val.null),
          ("snippet", Val.null)] "longitude" = none)) ∧
    ([("name", Val.str "Rattlesnake Ledge")] ∈ flatKeyStore.list_all ∧
      (getKey [("name", Val.str "Rattlesnake Ledge")] "latitude" = none ∧
        getKey [("name", Val.str "Rattlesnake Ledge")] "longitude" = none)) :=
  ⟨⟨by decide,
    (C10_no_flat_coordinates flatKeyStore "ledge" 5 none none none _).1 (by decide)⟩,
   ⟨by decide,
    (C10_no_flat_coordinates flatKeyStore "ledge" 5 none none none _).2 (by decide)⟩⟩
